import Mathlib

/-!
Shallow embedding of the slides-agent review/revision workflow
(`src/ppt_agent`): the plan schema (`schemas/slides.py`), the workflow
state (`graph/state.py`), the step functions and routers
(`graph/nodes.py`), the graph wiring (`graph/workflow.py`) and the
interactive driver guard (`agent.py`).  External collaborators (the LLM
synthesis calls and the Google Slides rendering service) are modelled as
explicit outcome parameters handed to the step functions, exactly as the
Python code branches on their success or failure.
-/

namespace SlidesAgent

/-! ### Decimal rendering helpers

Python renders integers in decimal (`str(i)`, `f"{i:2}"`).  We model
decimal rendering with a fuel-indexed structural recursion so that every
definition reduces by `decide` / `rfl`. -/

/-- Fuel-indexed most-significant-digit-first decimal digits of `n`.
Any `fuel > n` is enough fuel. -/
def natToDecimalAux : Nat → Nat → List Char
  | 0, _ => []
  | fuel + 1, n =>
    if n < 10 then [Nat.digitChar n]
    else natToDecimalAux fuel (n / 10) ++ [Nat.digitChar (n % 10)]

/-- Decimal digit characters of `n`, most significant first: the model of
Python `str(n)` for a nonnegative integer. -/
def natToDecimal (n : Nat) : List Char :=
  natToDecimalAux (n + 1) n

/-- Python `str(n)` for `n : Nat`, as a `String`. -/
def natToString (n : Nat) : String :=
  String.mk (natToDecimal n)

/-- Python `str(i)` for a (possibly negative) integer. -/
def intToString (i : Int) : String :=
  if i < 0 then String.mk ('-' :: natToDecimal i.natAbs) else natToString i.natAbs

/-- Python `f"{i:2}"`: right-align the decimal rendering in a field of
width 2, padding with spaces. -/
def padNum2 (n : Nat) : List Char :=
  let ds := natToDecimal n
  if ds.length < 2 then ' ' :: ds else ds

/-- Python `f"{s:15}"`: left-align `s` in a field of width 15, padding
with spaces. -/
def padRight15 (s : String) : List Char :=
  s.data ++ List.replicate (15 - s.data.length) ' '

/-- Python `"\n".join(lines)`. -/
def joinLines : List String → String
  | [] => ""
  | [l] => l
  | l :: ls => l ++ "\n" ++ joinLines ls

/-- Python `s.lower()` (ASCII case mapping), character by character. -/
def strLower (s : String) : String :=
  String.mk (s.data.map Char.toLower)

/-- Python `s.strip()`: remove leading and trailing whitespace. -/
def strStrip (s : String) : String :=
  String.mk (((s.data.dropWhile Char.isWhitespace).reverse.dropWhile Char.isWhitespace).reverse)

/-! ### Plan schema (`schemas/slides.py`) -/

/-- `SlideType` enumeration. -/
inductive SlideType : Type
  | title
  | agenda
  | content
  | key_points
  | section_header
  | closing
deriving DecidableEq, Repr

/-- The `value` of each `SlideType` enum member. -/
def SlideType.value : SlideType → String
  | .title => "title"
  | .agenda => "agenda"
  | .content => "content"
  | .key_points => "key_points"
  | .section_header => "section_header"
  | .closing => "closing"

/-- The closed tagged union of the six slide variants, each carrying its
variant-specific fields plus the common `speaker_notes`.  A `points`
entry of a key-points slide is a `(title, description)` pair. -/
inductive Slide : Type
  | titleSlide (title subtitle author date speaker_notes : String)
  | agendaSlide (title : String) (items : List String) (speaker_notes : String)
  | contentSlide (title body image_suggestion speaker_notes : String)
  | keyPointsSlide (title : String) (points : List (String × String)) (speaker_notes : String)
  | sectionHeaderSlide (title subtitle speaker_notes : String)
  | closingSlide (title message speaker_notes : String)
deriving DecidableEq, Repr

/-- The `slide_type` discriminator of a slide. -/
def Slide.slide_type : Slide → SlideType
  | .titleSlide _ _ _ _ _ => .title
  | .agendaSlide _ _ _ => .agenda
  | .contentSlide _ _ _ _ => .content
  | .keyPointsSlide _ _ _ => .key_points
  | .sectionHeaderSlide _ _ _ => .section_header
  | .closingSlide _ _ _ => .closing

/-- `getattr(slide, "title", slide.slide_type.value)` from
`get_slide_summary`: every one of the six variants declares a `title`
field (agenda and closing slides give it a default), so the fallback to
the type tag never fires. -/
def Slide.title : Slide → String
  | .titleSlide t _ _ _ _ => t
  | .agendaSlide t _ _ => t
  | .contentSlide t _ _ _ => t
  | .keyPointsSlide t _ _ => t
  | .sectionHeaderSlide t _ _ => t
  | .closingSlide t _ _ => t

/-- `PresentationPlan`: the plan envelope around the ordered slide list. -/
structure PresentationPlan : Type where
  title : String
  description : String
  target_audience : String
  estimated_duration_minutes : Int
  slides : List Slide
deriving DecidableEq, Repr

/-- `PresentationPlan.get_slide_count`: `len(self.slides)`. -/
def PresentationPlan.get_slide_count (p : PresentationPlan) : Nat :=
  p.slides.length

/-- One slide line of the summary:
`f"{i:2}. [{slide.slide_type.value:15}] {slide_title}"`. -/
def slideLine (i : Nat) (s : Slide) : String :=
  String.mk (padNum2 i) ++ ". [" ++ String.mk (padRight15 s.slide_type.value) ++ "] " ++ s.title

/-- The `lines` list built by `PresentationPlan.get_slide_summary`
before joining: header lines, then one line per slide, numbered from 1. -/
def summaryLines (p : PresentationPlan) : List String :=
  ["Presentation: " ++ p.title,
   "Slides: " ++ natToString p.get_slide_count,
   "Duration: ~" ++ intToString p.estimated_duration_minutes ++ " minutes",
   "",
   "Slide Structure:",
   String.mk (List.replicate 40 '-')]
  ++ (p.slides.enumFrom 1).map (fun is => slideLine is.1 is.2)

/-- `PresentationPlan.get_slide_summary`: `"\n".join(lines)`. -/
def PresentationPlan.get_slide_summary (p : PresentationPlan) : String :=
  joinLines (summaryLines p)

/-! ### Detailed per-slide dump used by `present_for_review`

`present_for_review` iterates `slide.model_dump().items()` and prints
every non-empty field except the discriminator.  Pydantic serializes the
fields in declaration order with the inherited fields first, so the
order is: `slide_type` (skipped), `speaker_notes`, then the variant
fields in declaration order.  List-valued fields are bulleted and dict
items inside lists are serialized with `json.dumps`. -/

/-- The four lowercase hex digits of `n < 65536`, as in `json.dumps`
`\uXXXX` escapes. -/
def toHex4 (n : Nat) : List Char :=
  [Nat.digitChar (n / 4096 % 16), Nat.digitChar (n / 256 % 16),
   Nat.digitChar (n / 16 % 16), Nat.digitChar (n % 16)]

/-- `json.dumps` escaping of one character (default `ensure_ascii=True`):
quote and backslash are escaped, the common control characters get their
two-character escapes, other control characters and all non-ASCII
characters become `\uXXXX` (astral characters as a surrogate pair). -/
def jsonEscapeChar (c : Char) : List Char :=
  if c = '"' then ['\\', '"']
  else if c = '\\' then ['\\', '\\']
  else if c = '\n' then ['\\', 'n']
  else if c = '\t' then ['\\', 't']
  else if c = '\r' then ['\\', 'r']
  else if c.toNat = 8 then ['\\', 'b']
  else if c.toNat = 12 then ['\\', 'f']
  else if c.toNat < 32 then '\\' :: 'u' :: toHex4 c.toNat
  else if c.toNat < 127 then [c]
  else if c.toNat < 65536 then '\\' :: 'u' :: toHex4 c.toNat
  else
    let v := c.toNat - 65536
    ('\\' :: 'u' :: toHex4 (55296 + v / 1024)) ++ ('\\' :: 'u' :: toHex4 (56320 + v % 1024))

/-- A `json.dumps` string literal. -/
def jsonString (s : String) : String :=
  "\"" ++ String.mk (s.data.map jsonEscapeChar).flatten ++ "\""

/-- `json.dumps` of one key-points entry, a dict with the keys `title`
and `description` in insertion order. -/
def jsonDumpsPoint (p : String × String) : String :=
  "\x7b\"title\": " ++ jsonString p.1 ++ ", \"description\": " ++ jsonString p.2 ++ "\x7d"

/-- One `  - {key}: {value}` line for a non-empty scalar field; an empty
string is falsy in Python and is skipped. -/
def strFieldLines (key v : String) : List String :=
  if v = "" then [] else ["  - " ++ key ++ ": " ++ v]

/-- The `  - {key}:` header plus one `    • {item}` bullet per element of
a non-empty list field; an empty list is falsy and is skipped. -/
def listFieldLines (key : String) (items : List String) : List String :=
  if items = [] then [] else ("  - " ++ key ++ ":") :: items.map (fun it => "    • " ++ it)

/-- The non-empty fields of one slide, in `model_dump` order with the
`slide_type` discriminator excluded. -/
def Slide.detailLines : Slide → List String
  | .titleSlide t st a d sn =>
      strFieldLines "speaker_notes" sn ++ strFieldLines "title" t ++
      strFieldLines "subtitle" st ++ strFieldLines "author" a ++ strFieldLines "date" d
  | .agendaSlide t items sn =>
      strFieldLines "speaker_notes" sn ++ strFieldLines "title" t ++
      listFieldLines "items" items
  | .contentSlide t b img sn =>
      strFieldLines "speaker_notes" sn ++ strFieldLines "title" t ++
      strFieldLines "body" b ++ strFieldLines "image_suggestion" img
  | .keyPointsSlide t pts sn =>
      strFieldLines "speaker_notes" sn ++ strFieldLines "title" t ++
      listFieldLines "points" (pts.map jsonDumpsPoint)
  | .sectionHeaderSlide t st sn =>
      strFieldLines "speaker_notes" sn ++ strFieldLines "title" t ++
      strFieldLines "subtitle" st
  | .closingSlide t m sn =>
      strFieldLines "speaker_notes" sn ++ strFieldLines "title" t ++
      strFieldLines "message" m

/-- `slide.slide_type.value.upper()`. -/
def SlideType.valueUpper : SlideType → String
  | .title => "TITLE"
  | .agenda => "AGENDA"
  | .content => "CONTENT"
  | .key_points => "KEY_POINTS"
  | .section_header => "SECTION_HEADER"
  | .closing => "CLOSING"

/-- The `detailed_slides` list of `present_for_review`: for each slide a
`\n### Slide {i}: {TYPE}` header followed by its field lines. -/
def detailedSlides (p : PresentationPlan) : List String :=
  ((p.slides.enumFrom 1).map (fun is =>
    ("\n### Slide " ++ natToString is.1 ++ ": " ++ is.2.slide_type.valueUpper)
      :: is.2.detailLines)).flatten

/-- `detailed_view = "\n".join(detailed_slides)`. -/
def detailed_view (p : PresentationPlan) : String :=
  joinLines (detailedSlides p)

/-- `REVIEW_PLAN_TEMPLATE.format(summary, detailed_view,
remaining_revisions)` from `prompts/templates_esp.py`. -/
def review_message (p : PresentationPlan) (remaining : Int) : String :=
  "\n## Revisión del Plan de Presentación\n\n" ++ p.get_slide_summary ++
  "\n\n## Contenido Detallado de las Diapositivas:\n" ++ detailed_view p ++
  "\n\n---\n**Por favor, revisa el plan anterior y responde con una de las siguientes opciones:**\n- **\"aprobar\"** - Aceptar este plan y continuar\n- **\"rechazar\"** - Rechazar este plan por completo\n- **Tus comentarios** - Proporcionar cambios específicos que te gustaría hacer\n\nRevisiones restantes: " ++
  intToString remaining ++ "\n"

/-! ### Workflow state (`graph/state.py`) -/

/-- `DocumentAnalysis`: structured summary of the input document. -/
structure DocumentAnalysis : Type where
  main_topic : String
  key_sections : List String
  technical_highlights : List String
  economic_highlights : List String
  target_audience : String
  suggested_tone : String
deriving DecidableEq, Repr

/-- `PlanStatus` enumeration. -/
inductive PlanStatus : Type
  | pending
  | draft
  | revision_requested
  | approved
  | rejected
deriving DecidableEq, Repr

/-- `AgentState`: the record threaded through the graph.  `messages` is
the append-only log of message contents (`add_messages` appends the
returned messages). -/
structure AgentState : Type where
  document : String
  document_analysis : Option DocumentAnalysis
  presentation_plan : Option PresentationPlan
  status : PlanStatus
  user_feedback : String
  revision_count : Int
  max_revisions : Int
  messages : List String
  error : Option String
deriving DecidableEq, Repr

/-- `AgentState(document=document)` as built by `run_agent`: every other
field takes its declared default. -/
def initialState (document : String) : AgentState :=
  { document := document
    document_analysis := none
    presentation_plan := none
    status := .pending
    user_feedback := ""
    revision_count := 0
    max_revisions := 5
    messages := []
    error := none }

/-! ### Step functions (`graph/nodes.py`)

Each node returns a partial update that the graph merges into the state:
a returned field overwrites the old value and returned messages are
appended.  We model a node directly as the merged state transformation;
a field absent from the returned dict is left unchanged.  The external
synthesis call is an explicit `Except` parameter: `.ok` is a successful
structured response, `.error e` carries `str(e)` of the raised
exception. -/

/-- `analyze_document`: success sets `document_analysis` and appends the
analysis message; failure sets `error` and appends an error message. -/
def analyze_document (s : AgentState) (r : Except String DocumentAnalysis) : AgentState :=
  match r with
  | .ok analysis =>
      { s with document_analysis := some analysis
               messages := s.messages ++
                 ["He analizado el documento. Tema principal: " ++ analysis.main_topic] }
  | .error e =>
      { s with error := some ("Failed to analyze document: " ++ e)
               messages := s.messages ++ ["Error analyzing document: " ++ e] }

/-- `generate_plan`: success sets `presentation_plan`, `status = DRAFT`
and appends the slide-count + summary message; failure sets `error`,
`status = PENDING` and appends an error message. -/
def generate_plan (s : AgentState) (r : Except String PresentationPlan) : AgentState :=
  match r with
  | .ok plan =>
      { s with presentation_plan := some plan
               status := .draft
               messages := s.messages ++
                 ["He creado un plan de presentación con " ++
                  natToString plan.get_slide_count ++ " diapositivas.\n\n" ++
                  plan.get_slide_summary] }
  | .error e =>
      { s with error := some ("Failed to generate plan: " ++ e)
               status := .pending
               messages := s.messages ++ ["Error generating plan: " ++ e] }

/-- `revise_plan`: success sets `presentation_plan`, `status = DRAFT`,
increments `revision_count`, clears `user_feedback` and appends the
revision message; failure sets `error` and appends an error message,
returning no other field. -/
def revise_plan (s : AgentState) (r : Except String PresentationPlan) : AgentState :=
  match r with
  | .ok revised_plan =>
      { s with presentation_plan := some revised_plan
               status := .draft
               revision_count := s.revision_count + 1
               user_feedback := ""
               messages := s.messages ++
                 ["He revisado el plan de presentación basándome en tus comentarios.\n\n" ++
                  revised_plan.get_slide_summary] }
  | .error e =>
      { s with error := some ("Failed to revise plan: " ++ e)
               messages := s.messages ++ ["Error revising plan: " ++ e] }

/-- `present_for_review`: a pure formatting step; it only appends one
message (a "no plan" notice, or the review template filled with the
summary, the detailed view and `max_revisions - revision_count`). -/
def present_for_review (s : AgentState) : AgentState :=
  match s.presentation_plan with
  | none =>
      { s with messages := s.messages ++ ["No hay un plan disponible para revisión."] }
  | some plan =>
      { s with messages := s.messages ++
          [review_message plan (s.max_revisions - s.revision_count)] }

/-- Outcome of the Google Slides rendering attempt inside
`finalize_plan`: no credentials configured, a created presentation with
its URL, or `str(e)` of the exception the service raised. -/
inductive RenderOutcome : Type
  | noCredentials
  | rendered (url : String)
  | failed (e : String)
deriving DecidableEq, Repr

/-- `finalize_plan`: with no plan it sets `error` and appends an error
message; with a plan it sets `status = APPROVED` and appends one
approval message whose tail reports the rendering outcome (failure and
missing credentials are advisory text only). -/
def finalize_plan (s : AgentState) (r : RenderOutcome) : AgentState :=
  match s.presentation_plan with
  | none =>
      { s with error := some "No plan to finalize"
               messages := s.messages ++ ["Error: No plan available to finalize."] }
  | some plan =>
      let slides_message :=
        match r with
        | .rendered url => "\n\n🔗 **Google Slides Created:**\n" ++ url
        | .failed e => "\n\n⚠️ Could not create Google Slides: " ++ e
        | .noCredentials => "\n\n💡 Configure GOOGLE_CREDENTIALS_PATH to auto-generate Google Slides."
      { s with status := .approved
               messages := s.messages ++
                 ["✅ Plan approved and finalized!\n\n" ++ plan.get_slide_summary ++
                  slides_message] }

/-- `handle_rejection`: sets `status = REJECTED` and appends the
rejection message. -/
def handle_rejection (s : AgentState) : AgentState :=
  { s with status := .rejected
           messages := s.messages ++
             ["El plan de presentación ha sido rechazado. Puedes comenzar de nuevo con un nuevo documento o proporcionar diferentes requisitos."] }

/-! ### Routers (`graph/nodes.py`) and graph wiring (`graph/workflow.py`) -/

/-- `state.user_feedback.lower().strip()`. -/
def normalizedFeedback (s : AgentState) : String :=
  strStrip (strLower s.user_feedback)

/-- `should_continue_review`: the review-decision router. -/
def should_continue_review (s : AgentState) : String :=
  let feedback := normalizedFeedback s
  if feedback = "aprobar" then "finalize"
  else if feedback = "rechazar" then "reject"
  else if s.revision_count ≥ s.max_revisions then "max_revisions"
  else "revise"

/-- `check_for_errors`: `if state.error: return "error"` — Python
truthiness, so `None` and the empty string both continue. -/
def check_for_errors (s : AgentState) : String :=
  match s.error with
  | some e => if e = "" then "continue" else "error"
  | none => "continue"

/-- The graph nodes added in `create_graph`. -/
inductive Node : Type
  | analyze_document
  | generate_plan
  | present_for_review
  | revise_plan
  | finalize_plan
  | handle_rejection
deriving DecidableEq, Repr

/-- The conditional-edge dictionary attached to `present_for_review`:
both the `"finalize"` and the `"max_revisions"` router results lead to
the `finalize_plan` node. -/
def review_edge_map (k : String) : Option Node :=
  if k = "finalize" then some .finalize_plan
  else if k = "reject" then some .handle_rejection
  else if k = "revise" then some .revise_plan
  else if k = "max_revisions" then some .finalize_plan
  else none

/-- The node the graph runs after the review suspension: the edge
dictionary applied to the router result. -/
def review_route (s : AgentState) : Option Node :=
  review_edge_map (should_continue_review s)

/-! ### The compiled graph as a transition system

`create_graph` wires the nodes with `check_for_errors` after the
analyze/generate/revise nodes (`"error" → END`) and
`should_continue_review` after `present_for_review`; `compile_graph`
interrupts after `present_for_review`, and a resume call merges
`{"user_feedback": feedback}` into the state before the conditional
edge runs (`agent.py`). -/

/-- A configuration of the compiled graph: about to run a node,
suspended at the review interrupt, or at `END`. -/
inductive Cfg : Type
  | running (n : Node) (s : AgentState)
  | suspended (s : AgentState)
  | finished (s : AgentState)
deriving DecidableEq, Repr

/-- The state carried by a configuration. -/
def Cfg.state : Cfg → AgentState
  | .running _ s => s
  | .suspended s => s
  | .finished s => s

/-- The `check_for_errors` conditional edge leaving `analyze_document`:
`"error" → END`, `"continue" → generate_plan`. -/
def afterAnalyze (s : AgentState) : Cfg :=
  if check_for_errors s = "error" then .finished s else .running .generate_plan s

/-- The `check_for_errors` conditional edge leaving `generate_plan`:
`"error" → END`, `"continue" → present_for_review`. -/
def afterGenerate (s : AgentState) : Cfg :=
  if check_for_errors s = "error" then .finished s else .running .present_for_review s

/-- The `check_for_errors` conditional edge leaving `revise_plan`:
`"error" → END`, `"continue" → present_for_review`. -/
def afterRevise (s : AgentState) : Cfg :=
  if check_for_errors s = "error" then .finished s else .running .present_for_review s

/-- The `should_continue_review` conditional edge evaluated on resume.
The router only ever returns one of the four mapped keys, so the `none`
branch of the edge dictionary is unreachable; we leave the session
suspended there. -/
def resumeTarget (s : AgentState) : Cfg :=
  match review_route s with
  | some n => .running n s
  | none => .suspended s

/-- One step of the compiled graph: running a node (with an arbitrary
outcome of its external call) and following its outgoing edge, or
resuming the review interrupt with an arbitrary feedback signal. -/
inductive Step : Cfg → Cfg → Prop
  | analyze (s : AgentState) (r : Except String DocumentAnalysis) :
      Step (.running .analyze_document s) (afterAnalyze (analyze_document s r))
  | generate (s : AgentState) (r : Except String PresentationPlan) :
      Step (.running .generate_plan s) (afterGenerate (generate_plan s r))
  | present (s : AgentState) :
      Step (.running .present_for_review s) (.suspended (present_for_review s))
  | resume (s : AgentState) (feedback : String) :
      Step (.suspended s) (resumeTarget { s with user_feedback := feedback })
  | revise (s : AgentState) (r : Except String PresentationPlan) :
      Step (.running .revise_plan s) (afterRevise (revise_plan s r))
  | finalize (s : AgentState) (r : RenderOutcome) :
      Step (.running .finalize_plan s) (.finished (finalize_plan s r))
  | reject (s : AgentState) :
      Step (.running .handle_rejection s) (.finished (handle_rejection s))

/-- Reflexive-transitive closure of `Step`. -/
inductive Reachable : Cfg → Cfg → Prop
  | refl (c : Cfg) : Reachable c c
  | tail (a b c : Cfg) : Reachable a b → Step b c → Reachable a c

/-- The configuration a fresh session starts in: the graph entry point
`analyze_document` on `AgentState(document=document)`. -/
def initCfg (document : String) : Cfg :=
  .running .analyze_document (initialState document)

/-! ### Interactive driver guard (`agent.py`, `run_agent`) -/

/-- The review-loop input handling of `run_agent`: the raw line is
stripped; `if not user_input:` prints a re-prompt and loops without
resuming the graph (`none`); otherwise the stripped input is submitted
as the `user_feedback` of the resume call (`some`). -/
def handleUserInput (rawInput : String) : Option String :=
  let user_input := strStrip rawInput
  if user_input = "" then none else some user_input

/-! ### Spec-modelled summary re-parser

The spec's round-trip property re-parses a generated slide summary, but
the repository contains no such parser; the definitions below are
modelled from the spec. -/

/-- Splits a character list at newline characters; models Python
`s.split("\n")` (an empty input yields one empty line). -/
def splitLinesChars : List Char → List (List Char)
  | [] => [[]]
  | c :: cs =>
    if c = '\n' then [] :: splitLinesChars cs
    else
      match splitLinesChars cs with
      | [] => [[c]]
      | l :: ls => (c :: l) :: ls

/-- The lines of a string. -/
def splitLines (s : String) : List String :=
  (splitLinesChars s.data).map String.mk

/-- The longest digit prefix of a character list, with the remainder. -/
def takeDigits : List Char → List Char × List Char
  | [] => ([], [])
  | c :: cs =>
    if c.isDigit then
      let r := takeDigits cs
      (c :: r.1, r.2)
    else ([], c :: cs)

/-- The numeric value of a decimal digit character. -/
def digitVal (c : Char) : Nat :=
  c.toNat - 48

/-- The value of a most-significant-first digit string. -/
def digitsVal (cs : List Char) : Nat :=
  cs.foldl (fun acc c => acc * 10 + digitVal c) 0

/-- Drop leading space characters. -/
def dropSpaces (cs : List Char) : List Char :=
  cs.dropWhile (fun c => c = ' ')

/-- Drop trailing space characters. -/
def rstripSpaces (cs : List Char) : List Char :=
  (cs.reverse.dropWhile (fun c => c = ' ')).reverse

/-- The characters before the first closing bracket. -/
def takeUntilRB : List Char → List Char
  | [] => []
  | c :: cs => if c = ']' then [] else c :: takeUntilRB cs

/-- The remainder from the first closing bracket on. -/
def dropUntilRB : List Char → List Char
  | [] => []
  | c :: cs => if c = ']' then c :: cs else dropUntilRB cs

/-- The inverse of `SlideType.value`. -/
def SlideType.ofValue (v : String) : Option SlideType :=
  if v = "title" then some .title
  else if v = "agenda" then some .agenda
  else if v = "content" then some .content
  else if v = "key_points" then some .key_points
  else if v = "section_header" then some .section_header
  else if v = "closing" then some .closing
  else none

/-- Modelled from the spec: parse one summary line of the shape
`f"{i:2}. [{type_tag:15}] {title}"` produced by `get_slide_summary`,
recovering the 1-based index and the type tag; any line of another
shape parses to nothing. -/
def parseSlideLine (line : String) : Option (Nat × SlideType) :=
  let cs := dropSpaces line.data
  let digits := (takeDigits cs).1
  let rest := (takeDigits cs).2
  if digits = [] then none
  else
    match rest with
    | '.' :: ' ' :: '[' :: rest2 =>
      let tagPart := takeUntilRB rest2
      let rest3 := dropUntilRB rest2
      match rest3 with
      | ']' :: _ =>
        match SlideType.ofValue (String.mk (rstripSpaces tagPart)) with
        | some st => some (digitsVal digits, st)
        | none => none
      | _ => none
    | _ => none

/-- Modelled from the spec: re-parse a generated slide summary into the
listed slides, each as its 1-based index and type tag, in the order
listed. -/
def parseSummary (summary : String) : List (Nat × SlideType) :=
  (splitLines summary).filterMap parseSlideLine

/-! ### Concrete fixtures used by witnesses and counterexamples -/

/-- A small concrete plan used by witnesses. -/
def demoPlan : PresentationPlan :=
  { title := "Demo"
    description := ""
    target_audience := ""
    estimated_duration_minutes := 30
    slides := [.titleSlide "Hello" "" "" "" "", .closingSlide "Thank You" "" ""] }

/-- A small concrete analysis used by witnesses. -/
def demoAnalysis : DocumentAnalysis :=
  { main_topic := "Cloud"
    key_sections := []
    technical_highlights := []
    economic_highlights := []
    target_audience := ""
    suggested_tone := "professional" }

/-! ### C1: review-decision priority list -/

/-- Claim C1, counterexample: the claim says feedback exactly matching
"approve" (after case/whitespace normalization) routes to finalize and
"reject" routes to reject, but the router compares against the Spanish
keywords, so the English words fall through to the revise branch. -/
theorem C1_counterexample :
    should_continue_review { (initialState "doc") with user_feedback := "approve" } = "revise" ∧
    should_continue_review { (initialState "doc") with user_feedback := "reject" } = "revise" ∧
    ("revise" : String) ≠ "finalize" ∧ ("revise" : String) ≠ "reject" := by
  refine ⟨by decide, by decide, by decide, by decide⟩

/-- Claim C1 (amended: the keywords are the Spanish "aprobar" and
"rechazar", not "approve" and "reject"): for every workflow state the
review decision is a strict priority list — normalized feedback
"aprobar" routes to the finalize node; otherwise "rechazar" routes to
the reject node; otherwise `revision_count >= max_revisions` routes to
the finalize node (through the "max_revisions" edge); otherwise the
revise node runs. -/
theorem C1_amended_thm (s : AgentState) :
    (normalizedFeedback s = "aprobar" → review_route s = some Node.finalize_plan) ∧
    (normalizedFeedback s ≠ "aprobar" → normalizedFeedback s = "rechazar" →
      review_route s = some Node.handle_rejection) ∧
    (normalizedFeedback s ≠ "aprobar" → normalizedFeedback s ≠ "rechazar" →
      s.revision_count ≥ s.max_revisions → review_route s = some Node.finalize_plan) ∧
    (normalizedFeedback s ≠ "aprobar" → normalizedFeedback s ≠ "rechazar" →
      s.revision_count < s.max_revisions → review_route s = some Node.revise_plan) := by
  refine ⟨fun h1 => ?_, fun h1 h2 => ?_, fun h1 h2 h3 => ?_, fun h1 h2 h3 => ?_⟩
  · simp [review_route, should_continue_review, review_edge_map, h1]
  · simp [review_route, should_continue_review, review_edge_map, h1, h2]
  · simp [review_route, should_continue_review, review_edge_map, h1, h2, h3]
  · simp [review_route, should_continue_review, review_edge_map, h1, h2, not_le.mpr h3]

/-- Witness for C1: the four branches at concrete states (keyword with
case/whitespace noise, keyword, exhausted budget, free-text feedback). -/
theorem C1_amended_witness :
    review_route { (initialState "d") with user_feedback := "  Aprobar " } = some Node.finalize_plan ∧
    review_route { (initialState "d") with user_feedback := "rechazar" } = some Node.handle_rejection ∧
    review_route { (initialState "d") with user_feedback := "más gráficos", revision_count := 5 } = some Node.finalize_plan ∧
    review_route { (initialState "d") with user_feedback := "más gráficos" } = some Node.revise_plan :=
  ⟨(C1_amended_thm _).1 (by decide),
   (C1_amended_thm _).2.1 (by decide) (by decide),
   (C1_amended_thm _).2.2.1 (by decide) (by decide) (by decide),
   (C1_amended_thm _).2.2.2 (by decide) (by decide) (by decide)⟩

/-! ### C3: successful revise update -/

/-- Claim C3: a successful revise sets the plan to the revised plan,
sets the status to DRAFT, increments `revision_count` by exactly 1,
clears the feedback, and appends exactly one revision-summary message. -/
theorem C3_thm (s : AgentState) (p : PresentationPlan) :
    (revise_plan s (.ok p)).presentation_plan = some p ∧
    (revise_plan s (.ok p)).status = .draft ∧
    (revise_plan s (.ok p)).revision_count = s.revision_count + 1 ∧
    (revise_plan s (.ok p)).user_feedback = "" ∧
    (revise_plan s (.ok p)).messages =
      s.messages ++
        ["He revisado el plan de presentación basándome en tus comentarios.\n\n" ++
         p.get_slide_summary] ∧
    (revise_plan s (.ok p)).messages.length = s.messages.length + 1 := by
  refine ⟨rfl, rfl, rfl, rfl, rfl, by simp [revise_plan]⟩

/-! ### C4: failed revise frame -/

/-- Claim C4: a failed revise sets `error`, appends exactly one error
message, and leaves `user_feedback`, `presentation_plan`, `status` and
`revision_count` exactly unchanged. -/
theorem C4_thm (s : AgentState) (e : String) :
    (revise_plan s (.error e)).error = some ("Failed to revise plan: " ++ e) ∧
    (revise_plan s (.error e)).messages = s.messages ++ ["Error revising plan: " ++ e] ∧
    (revise_plan s (.error e)).messages.length = s.messages.length + 1 ∧
    (revise_plan s (.error e)).user_feedback = s.user_feedback ∧
    (revise_plan s (.error e)).presentation_plan = s.presentation_plan ∧
    (revise_plan s (.error e)).status = s.status ∧
    (revise_plan s (.error e)).revision_count = s.revision_count := by
  refine ⟨rfl, rfl, by simp [revise_plan], rfl, rfl, rfl, rfl⟩

/-! ### C5: blank feedback on resume -/

/-- Claim C5, counterexample: the review router itself routes a resumed
state with empty feedback (and remaining budget) to the revise node, so
a blank resume is not universally a re-prompt or no-op: the stateless
`submit_feedback` path performs no blank check before the graph resumes. -/
theorem C5_counterexample :
    ({ (initialState "doc") with
        status := PlanStatus.draft, presentation_plan := some demoPlan,
        user_feedback := "" } : AgentState).user_feedback = "" ∧
    review_route
      { (initialState "doc") with
        status := PlanStatus.draft, presentation_plan := some demoPlan,
        user_feedback := "" } = some Node.revise_plan := by
  refine ⟨rfl, by decide⟩

/-- Claim C5 (amended: only the interactive driver guards against blank
feedback): `run_agent` strips the raw input and re-prompts on a blank
line without resuming the graph, so an interactive resume never carries
empty feedback; the router itself, however, routes empty feedback with
remaining budget to revise, and the stateless `submit_feedback` applies
no such guard. -/
theorem C5_amended_thm (rawInput : String) :
    (strStrip rawInput = "" → handleUserInput rawInput = none) ∧
    (∀ u, handleUserInput rawInput = some u → u ≠ "") := by
  constructor
  · intro h
    simp [handleUserInput, h]
  · intro u hu
    simp [handleUserInput] at hu
    rw [← hu.2]
    exact hu.1

/-- Witness for C5: a whitespace-only line is not submitted; a real line
is submitted stripped and non-empty. -/
theorem C5_amended_witness :
    handleUserInput "   " = none ∧ ("hola" : String) ≠ "" :=
  ⟨(C5_amended_thm "   ").1 (by decide),
   (C5_amended_thm " hola ").2 "hola" (by decide)⟩

/-! ### C7: forced finalize at budget exhaustion -/

/-- Claim C7: in a DRAFT state whose revision count has reached the
ceiling, non-keyword feedback still routes to the finalize node. -/
theorem C7_thm (s : AgentState) (_hdraft : s.status = .draft)
    (hcount : s.revision_count = s.max_revisions)
    (h1 : normalizedFeedback s ≠ "aprobar") (h2 : normalizedFeedback s ≠ "rechazar") :
    review_route s = some Node.finalize_plan := by
  simp [review_route, should_continue_review, review_edge_map, h1, h2, le_of_eq hcount.symm]

/-- Witness for C7: a DRAFT state with `revision_count = max_revisions
= 5` and the feedback "change slide 3" routes to the finalize node. -/
theorem C7_witness :
    review_route
      { (initialState "doc") with
        status := PlanStatus.draft, presentation_plan := some demoPlan,
        user_feedback := "change slide 3", revision_count := 5 } = some Node.finalize_plan :=
  C7_thm _ (by decide) (by decide) (by decide) (by decide)

/-! ### C8: rendering is best-effort -/

/-- Claim C8: finalize on a state with a plan always sets APPROVED and
never touches `error`; a rendering failure and a missing rendering
credential are each reported only inside the single appended message. -/
theorem C8_thm (s : AgentState) (p : PresentationPlan)
    (hplan : s.presentation_plan = some p) :
    (∀ e, (finalize_plan s (.failed e)).status = .approved ∧
      (finalize_plan s (.failed e)).error = s.error ∧
      (finalize_plan s (.failed e)).messages = s.messages ++
        ["✅ Plan approved and finalized!\n\n" ++ p.get_slide_summary ++
         "\n\n⚠️ Could not create Google Slides: " ++ e]) ∧
    ((finalize_plan s .noCredentials).status = .approved ∧
     (finalize_plan s .noCredentials).error = s.error ∧
     (finalize_plan s .noCredentials).messages = s.messages ++
       ["✅ Plan approved and finalized!\n\n" ++ p.get_slide_summary ++
        "\n\n💡 Configure GOOGLE_CREDENTIALS_PATH to auto-generate Google Slides."]) := by
  refine ⟨fun e => ⟨?_, ?_, ?_⟩, ⟨?_, ?_, ?_⟩⟩ <;>
    simp [finalize_plan, hplan, String.append_assoc]

/-- Witness for C8: a concrete finalize with a failing rendering call
stays APPROVED with `error` still unset. -/
theorem C8_witness :
    (finalize_plan
      { (initialState "doc") with
        status := PlanStatus.draft, presentation_plan := some demoPlan }
      (.failed "boom")).status = .approved ∧
    (finalize_plan
      { (initialState "doc") with
        status := PlanStatus.draft, presentation_plan := some demoPlan }
      (.failed "boom")).error =
      ({ (initialState "doc") with
          status := PlanStatus.draft, presentation_plan := some demoPlan } : AgentState).error :=
  ⟨((C8_thm _ demoPlan rfl).1 "boom").1, ((C8_thm _ demoPlan rfl).1 "boom").2.1⟩

/-! ### Frame lemmas for the step functions -/

theorem analyze_frame (s : AgentState) (r : Except String DocumentAnalysis) :
    (analyze_document s r).revision_count = s.revision_count ∧
    (analyze_document s r).max_revisions = s.max_revisions ∧
    (analyze_document s r).status = s.status := by
  cases r <;> exact ⟨rfl, rfl, rfl⟩

theorem generate_frame (s : AgentState) (r : Except String PresentationPlan) :
    (generate_plan s r).revision_count = s.revision_count ∧
    (generate_plan s r).max_revisions = s.max_revisions ∧
    ((generate_plan s r).status = .draft ∨ (generate_plan s r).status = .pending) := by
  cases r with
  | error e => exact ⟨rfl, rfl, .inr rfl⟩
  | ok p => exact ⟨rfl, rfl, .inl rfl⟩

theorem revise_frame (s : AgentState) (r : Except String PresentationPlan) :
    (revise_plan s r).max_revisions = s.max_revisions ∧
    (((revise_plan s r).revision_count = s.revision_count + 1 ∧ (revise_plan s r).status = .draft) ∨
     ((revise_plan s r).revision_count = s.revision_count ∧ (revise_plan s r).status = s.status)) := by
  cases r with
  | error e => exact ⟨rfl, .inr ⟨rfl, rfl⟩⟩
  | ok p => exact ⟨rfl, .inl ⟨rfl, rfl⟩⟩

theorem present_frame (s : AgentState) :
    (present_for_review s).revision_count = s.revision_count ∧
    (present_for_review s).max_revisions = s.max_revisions ∧
    (present_for_review s).status = s.status := by
  cases h : s.presentation_plan <;> simp [present_for_review, h]

theorem finalize_frame (s : AgentState) (r : RenderOutcome) :
    (finalize_plan s r).revision_count = s.revision_count ∧
    (finalize_plan s r).max_revisions = s.max_revisions ∧
    ((finalize_plan s r).status = .approved ∨ (finalize_plan s r).status = s.status) := by
  cases h : s.presentation_plan with
  | none => simp [finalize_plan, h]
  | some p => simp [finalize_plan, h]

theorem reject_frame (s : AgentState) :
    (handle_rejection s).revision_count = s.revision_count ∧
    (handle_rejection s).max_revisions = s.max_revisions ∧
    (handle_rejection s).status = .rejected :=
  ⟨rfl, rfl, rfl⟩

/-! ### Configuration lemmas -/

theorem afterAnalyze_state (s : AgentState) : (afterAnalyze s).state = s := by
  unfold afterAnalyze; split <;> rfl

theorem afterGenerate_state (s : AgentState) : (afterGenerate s).state = s := by
  unfold afterGenerate; split <;> rfl

theorem afterRevise_state (s : AgentState) : (afterRevise s).state = s := by
  unfold afterRevise; split <;> rfl

theorem resumeTarget_state (s : AgentState) : (resumeTarget s).state = s := by
  unfold resumeTarget; cases review_route s <;> rfl

theorem afterAnalyze_ne_revise (s s' : AgentState) :
    afterAnalyze s ≠ .running .revise_plan s' := by
  unfold afterAnalyze; split <;> simp

theorem afterGenerate_ne_revise (s s' : AgentState) :
    afterGenerate s ≠ .running .revise_plan s' := by
  unfold afterGenerate; split <;> simp

theorem afterRevise_ne_revise (s s' : AgentState) :
    afterRevise s ≠ .running .revise_plan s' := by
  unfold afterRevise; split <;> simp

/-- Only the router key "revise" maps to the revise node. -/
theorem route_eq_revise (s : AgentState) (h : review_route s = some Node.revise_plan) :
    should_continue_review s = "revise" := by
  unfold review_route review_edge_map at h
  by_cases h1 : should_continue_review s = "finalize"
  · rw [if_pos h1] at h; exact absurd h (by simp)
  rw [if_neg h1] at h
  by_cases h2 : should_continue_review s = "reject"
  · rw [if_pos h2] at h; exact absurd h (by simp)
  rw [if_neg h2] at h
  by_cases h3 : should_continue_review s = "revise"
  · exact h3
  rw [if_neg h3] at h
  by_cases h4 : should_continue_review s = "max_revisions"
  · rw [if_pos h4] at h; exact absurd h (by simp)
  · rw [if_neg h4] at h; exact absurd h (by simp)

/-- The router returns "revise" only below the revision budget. -/
theorem should_revise_lt (s : AgentState) (h : should_continue_review s = "revise") :
    s.revision_count < s.max_revisions := by
  by_contra hge
  have hge2 : s.revision_count ≥ s.max_revisions := not_lt.mp hge
  simp only [should_continue_review] at h
  by_cases h1 : normalizedFeedback s = "aprobar"
  · rw [if_pos h1] at h; exact absurd h (by decide)
  rw [if_neg h1] at h
  by_cases h2 : normalizedFeedback s = "rechazar"
  · rw [if_pos h2] at h; exact absurd h (by decide)
  rw [if_neg h2, if_pos hge2] at h
  exact absurd h (by decide)

/-- If a resume enters the revise node it does so on the resumed state,
after the router returned "revise". -/
theorem resumeTarget_revise (s s' : AgentState)
    (h : resumeTarget s = .running .revise_plan s') :
    s' = s ∧ should_continue_review s = "revise" := by
  unfold resumeTarget at h
  cases hr : review_route s with
  | none => rw [hr] at h; exact absurd h (by simp)
  | some n =>
    rw [hr] at h
    simp only [Cfg.running.injEq] at h
    obtain ⟨hn, hs⟩ := h
    subst hn
    exact ⟨hs.symm, route_eq_revise s hr⟩

/-! ### C2: the revision budget is an invariant -/

/-- The strengthened budget invariant: the revision count is within the
budget, and the revise node is only ever entered strictly below it. -/
def BudgetInv (c : Cfg) : Prop :=
  c.state.revision_count ≤ c.state.max_revisions ∧
  ∀ s, c = .running .revise_plan s → s.revision_count < s.max_revisions

theorem step_budget {c c' : Cfg} (hstep : Step c c') (hinv : BudgetInv c) :
    BudgetInv c' := by
  cases hstep with
  | analyze s r =>
    refine ⟨?_, fun t ht => absurd ht (afterAnalyze_ne_revise _ t)⟩
    rw [afterAnalyze_state]
    obtain ⟨e1, e2, -⟩ := analyze_frame s r
    rw [e1, e2]; exact hinv.1
  | generate s r =>
    refine ⟨?_, fun t ht => absurd ht (afterGenerate_ne_revise _ t)⟩
    rw [afterGenerate_state]
    obtain ⟨e1, e2, -⟩ := generate_frame s r
    rw [e1, e2]; exact hinv.1
  | present s =>
    refine ⟨?_, fun t ht => absurd ht (by simp)⟩
    obtain ⟨e1, e2, -⟩ := present_frame s
    show (present_for_review s).revision_count ≤ (present_for_review s).max_revisions
    rw [e1, e2]; exact hinv.1
  | resume s feedback =>
    constructor
    · rw [resumeTarget_state]; exact hinv.1
    · intro t ht
      obtain ⟨hts, hrev⟩ := resumeTarget_revise _ t ht
      subst hts
      exact should_revise_lt _ hrev
  | revise s r =>
    have hlt : s.revision_count < s.max_revisions := hinv.2 s rfl
    refine ⟨?_, fun t ht => absurd ht (afterRevise_ne_revise _ t)⟩
    rw [afterRevise_state]
    obtain ⟨e1, e2⟩ := revise_frame s r
    rcases e2 with ⟨ec, -⟩ | ⟨ec, -⟩ <;> rw [ec, e1] <;> omega
  | finalize s r =>
    refine ⟨?_, fun t ht => absurd ht (by simp)⟩
    obtain ⟨e1, e2, -⟩ := finalize_frame s r
    show (finalize_plan s r).revision_count ≤ (finalize_plan s r).max_revisions
    rw [e1, e2]; exact hinv.1
  | reject s =>
    refine ⟨?_, fun t ht => absurd ht (by simp)⟩
    obtain ⟨e1, e2, -⟩ := reject_frame s
    show (handle_rejection s).revision_count ≤ (handle_rejection s).max_revisions
    rw [e1, e2]; exact hinv.1

/-- Claim C2: in every configuration reachable from a fresh session
(`revision_count = 0`), the revision count never exceeds the budget:
the revise node only runs below the budget and increments the count by
exactly 1 on success, so `revision_count <= max_revisions` is an
invariant of the step relation. -/
theorem C2_thm (document : String) (c : Cfg)
    (h : Reachable (initCfg document) c) :
    c.state.revision_count ≤ c.state.max_revisions := by
  have hinv : BudgetInv c := by
    induction h with
    | refl =>
      refine ⟨?_, fun s hs => by simp [initCfg] at hs⟩
      show (0 : Int) ≤ 5
      norm_num
    | tail b c hab hstep ih => exact step_budget hstep ih
  exact hinv.1

/-- Witness for C2: the configuration reached by one successful analyze
step from a fresh session satisfies the budget bound. -/
theorem C2_witness :
    (afterAnalyze (analyze_document (initialState "doc")
        (.ok demoAnalysis))).state.revision_count ≤
      (afterAnalyze (analyze_document (initialState "doc")
        (.ok demoAnalysis))).state.max_revisions :=
  C2_thm "doc" _ (Reachable.tail _ _ _ (Reachable.refl _) (Step.analyze _ _))

/-! ### C10: REVISION_REQUESTED is never written -/

theorem step_status {c c' : Cfg} (hstep : Step c c')
    (hinv : c.state.status = .pending ∨ c.state.status = .draft ∨
      c.state.status = .approved ∨ c.state.status = .rejected) :
    c'.state.status = .pending ∨ c'.state.status = .draft ∨
      c'.state.status = .approved ∨ c'.state.status = .rejected := by
  cases hstep with
  | analyze s r =>
    rw [afterAnalyze_state, (analyze_frame s r).2.2]; exact hinv
  | generate s r =>
    rw [afterGenerate_state]
    rcases (generate_frame s r).2.2 with h | h <;> rw [h]
    · exact .inr (.inl rfl)
    · exact .inl rfl
  | present s =>
    show (present_for_review s).status = .pending ∨ (present_for_review s).status = .draft ∨
      (present_for_review s).status = .approved ∨ (present_for_review s).status = .rejected
    rw [(present_frame s).2.2]; exact hinv
  | resume s feedback =>
    rw [resumeTarget_state]; exact hinv
  | revise s r =>
    rw [afterRevise_state]
    rcases (revise_frame s r).2 with ⟨-, h⟩ | ⟨-, h⟩ <;> rw [h]
    · exact .inr (.inl rfl)
    · exact hinv
  | finalize s r =>
    show (finalize_plan s r).status = .pending ∨ (finalize_plan s r).status = .draft ∨
      (finalize_plan s r).status = .approved ∨ (finalize_plan s r).status = .rejected
    rcases (finalize_frame s r).2.2 with h | h <;> rw [h]
    · exact .inr (.inr (.inl rfl))
    · exact hinv
  | reject s =>
    show (handle_rejection s).status = .pending ∨ (handle_rejection s).status = .draft ∨
      (handle_rejection s).status = .approved ∨ (handle_rejection s).status = .rejected
    rw [(reject_frame s).2.2]; exact .inr (.inr (.inr rfl))

/-- Claim C10: although `PlanStatus` declares REVISION_REQUESTED, no
step ever writes it: every configuration reachable from a fresh session
has status PENDING, DRAFT, APPROVED or REJECTED. -/
theorem C10_thm (document : String) (c : Cfg)
    (h : Reachable (initCfg document) c) :
    c.state.status = .pending ∨ c.state.status = .draft ∨
      c.state.status = .approved ∨ c.state.status = .rejected := by
  induction h with
  | refl => exact .inl rfl
  | tail b c hab hstep ih => exact step_status hstep ih

/-- Witness for C10: the configuration after one successful analyze step
from a fresh session. -/
theorem C10_witness :
    (afterAnalyze (analyze_document (initialState "doc")
        (.ok demoAnalysis))).state.status = .pending ∨
    (afterAnalyze (analyze_document (initialState "doc")
        (.ok demoAnalysis))).state.status = .draft ∨
    (afterAnalyze (analyze_document (initialState "doc")
        (.ok demoAnalysis))).state.status = .approved ∨
    (afterAnalyze (analyze_document (initialState "doc")
        (.ok demoAnalysis))).state.status = .rejected :=
  C10_thm "doc" _ (Reachable.tail _ _ _ (Reachable.refl _) (Step.analyze _ _))

/-! ### C6: stale errors are not cleared -/

/-- Claim C6, counterexample: a subsequently executing successful step
does not clear a previously set error — a successful revise leaves the
stale error value in place, because no success branch writes the
`error` key of the partial update. -/
theorem C6_counterexample :
    (revise_plan { (initialState "doc") with error := some "previous failure" }
        (.ok demoPlan)).error = some "previous failure" ∧
    some "previous failure" ≠ (none : Option String) :=
  ⟨rfl, by decide⟩

/-- Claim C6 (amended): no step clears `error` — every successful step
leaves the field exactly unchanged; instead, whenever `error` holds a
non-empty message the `check_for_errors` router returns "error", which
every conditional edge maps to END, so within a run no step executes
after a step failure. -/
theorem C6_amended_thm (s : AgentState) :
    (∀ e, s.error = some e → e ≠ "" → check_for_errors s = "error") ∧
    (∀ a, (analyze_document s (.ok a)).error = s.error) ∧
    (∀ p, (generate_plan s (.ok p)).error = s.error) ∧
    (∀ p, (revise_plan s (.ok p)).error = s.error) ∧
    ((present_for_review s).error = s.error) ∧
    ((handle_rejection s).error = s.error) ∧
    (∀ r p, s.presentation_plan = some p → (finalize_plan s r).error = s.error) := by
  refine ⟨?_, fun a => rfl, fun p => rfl, fun p => rfl, ?_, rfl, ?_⟩
  · intro e he hne
    simp [check_for_errors, he, hne]
  · cases h : s.presentation_plan <;> simp [present_for_review, h]
  · intro r p hp
    simp [finalize_plan, hp]

/-- Witness for C6: a concrete error state routes to END, and a concrete
successful finalize leaves `error` unchanged. -/
theorem C6_amended_witness :
    check_for_errors { (initialState "doc") with error := some "boom" } = "error" ∧
    (finalize_plan { (initialState "doc") with presentation_plan := some demoPlan }
        RenderOutcome.noCredentials).error =
      ({ (initialState "doc") with presentation_plan := some demoPlan } : AgentState).error :=
  ⟨(C6_amended_thm _).1 "boom" rfl (by decide),
   (C6_amended_thm _).2.2.2.2.2.2 RenderOutcome.noCredentials demoPlan rfl⟩

/-! ### Lemmas about decimal rendering -/

theorem digitChar_isDigit {n : Nat} (h : n < 10) : (Nat.digitChar n).isDigit = true := by
  interval_cases n <;> decide

theorem digitVal_digitChar {n : Nat} (h : n < 10) : digitVal (Nat.digitChar n) = n := by
  interval_cases n <;> decide

theorem natToDecimalAux_digits :
    ∀ (fuel n : Nat), ∀ c ∈ natToDecimalAux fuel n, c.isDigit = true := by
  intro fuel
  induction fuel with
  | zero => intro n c hc; simp [natToDecimalAux] at hc
  | succ fuel ih =>
    intro n c hc
    unfold natToDecimalAux at hc
    by_cases h : n < 10
    · rw [if_pos h] at hc
      simp at hc
      subst hc
      exact digitChar_isDigit h
    · rw [if_neg h] at hc
      simp at hc
      rcases hc with hc | hc
      · exact ih _ c hc
      · subst hc; exact digitChar_isDigit (Nat.mod_lt _ (by norm_num))

theorem natToDecimalAux_ne_nil :
    ∀ (fuel n : Nat), n < fuel → natToDecimalAux fuel n ≠ [] := by
  intro fuel
  induction fuel with
  | zero => intro n h; exact absurd h (Nat.not_lt_zero n)
  | succ fuel ih =>
    intro n h
    unfold natToDecimalAux
    by_cases h10 : n < 10
    · rw [if_pos h10]; simp
    · rw [if_neg h10]; simp

theorem natToDecimalAux_val :
    ∀ (fuel n acc : Nat), n < fuel →
      List.foldl (fun acc c => acc * 10 + digitVal c) acc (natToDecimalAux fuel n) =
        acc * 10 ^ (natToDecimalAux fuel n).length + n := by
  intro fuel
  induction fuel with
  | zero => intro n acc h; exact absurd h (Nat.not_lt_zero n)
  | succ fuel ih =>
    intro n acc h
    unfold natToDecimalAux
    by_cases h10 : n < 10
    · rw [if_pos h10]
      simp only [List.foldl_cons, List.foldl_nil, List.length_cons, List.length_nil]
      rw [digitVal_digitChar h10]
      ring
    · rw [if_neg h10]
      have hdiv : n / 10 < fuel := by
        have h1 : n / 10 < n := Nat.div_lt_self (by omega) (by norm_num)
        omega
      rw [List.foldl_append]
      rw [ih (n / 10) acc hdiv]
      simp only [List.foldl_cons, List.foldl_nil, List.length_append, List.length_cons,
        List.length_nil]
      rw [digitVal_digitChar (Nat.mod_lt _ (by norm_num))]
      have hmod := Nat.div_add_mod n 10
      calc (acc * 10 ^ (natToDecimalAux fuel (n / 10)).length + n / 10) * 10 + n % 10
          = acc * (10 ^ (natToDecimalAux fuel (n / 10)).length * 10) +
              (10 * (n / 10) + n % 10) := by ring
        _ = acc * 10 ^ ((natToDecimalAux fuel (n / 10)).length + 1) + n := by
              rw [hmod, pow_succ]

theorem digitsVal_natToDecimal (n : Nat) : digitsVal (natToDecimal n) = n := by
  unfold digitsVal natToDecimal
  rw [natToDecimalAux_val (n + 1) n 0 (Nat.lt_succ_self n)]
  simp

theorem natToDecimal_digits (n : Nat) : ∀ c ∈ natToDecimal n, c.isDigit = true :=
  natToDecimalAux_digits (n + 1) n

theorem natToDecimal_ne_nil (n : Nat) : natToDecimal n ≠ [] :=
  natToDecimalAux_ne_nil (n + 1) n (Nat.lt_succ_self n)

theorem ne_of_isDigit {c d : Char} (hc : c.isDigit = true) (hd : d.isDigit = false) :
    c ≠ d := by
  intro h
  subst h
  rw [hc] at hd
  exact Bool.noConfusion hd

/-! ### Lemmas about `takeDigits` and `splitLinesChars` -/

/-- Whether a character list does not start with a digit. -/
def headNotDigit : List Char → Bool
  | [] => true
  | c :: _ => !c.isDigit

theorem takeDigits_append (A rest : List Char)
    (hA : ∀ c ∈ A, c.isDigit = true) (hrest : headNotDigit rest = true) :
    takeDigits (A ++ rest) = (A, rest) := by
  induction A with
  | nil =>
    cases rest with
    | nil => rfl
    | cons c cs =>
      have hc : c.isDigit = false := by
        simpa [headNotDigit] using hrest
      simp [takeDigits, hc]
  | cons a A ih =>
    have ha : a.isDigit = true := hA a (List.mem_cons_self _ _)
    simp only [List.cons_append, takeDigits, ha, if_pos]
    rw [show A.append rest = A ++ rest from rfl]
    rw [ih (fun c hc => hA c (List.mem_cons_of_mem _ hc))]

theorem splitLinesChars_no_nl (cs : List Char) (h : '\n' ∉ cs) :
    splitLinesChars cs = [cs] := by
  induction cs with
  | nil => rfl
  | cons c cs ih =>
    have hc : c ≠ '\n' := fun e => h (e ▸ List.mem_cons_self c cs)
    have h2 : '\n' ∉ cs := fun e => h (List.mem_cons_of_mem _ e)
    simp only [splitLinesChars, if_neg hc, ih h2]

theorem splitLinesChars_append (cs rest : List Char) (h : '\n' ∉ cs) :
    splitLinesChars (cs ++ '\n' :: rest) = cs :: splitLinesChars rest := by
  induction cs with
  | nil => simp [splitLinesChars]
  | cons c cs ih =>
    have hc : c ≠ '\n' := fun e => h (e ▸ List.mem_cons_self c cs)
    have h2 : '\n' ∉ cs := fun e => h (List.mem_cons_of_mem _ e)
    simp only [List.cons_append, splitLinesChars, if_neg hc]
    rw [show cs.append ('\n' :: rest) = cs ++ '\n' :: rest from rfl, ih h2]

theorem mk_data (s : String) : String.mk s.data = s := rfl

theorem splitLines_joinLines :
    ∀ (L : List String), L ≠ [] → (∀ l ∈ L, '\n' ∉ l.data) →
      splitLines (joinLines L) = L := by
  intro L
  induction L with
  | nil => intro h; exact absurd rfl h
  | cons l ls ih =>
    intro _ hnl
    cases ls with
    | nil =>
      show splitLines (joinLines [l]) = [l]
      unfold joinLines splitLines
      rw [splitLinesChars_no_nl l.data (hnl l (List.mem_cons_self _ _))]
      simp [mk_data]
    | cons l2 ls2 =>
      show splitLines (joinLines (l :: l2 :: ls2)) = l :: l2 :: ls2
      have hjoin : joinLines (l :: l2 :: ls2) = l ++ "\n" ++ joinLines (l2 :: ls2) := rfl
      unfold splitLines
      rw [hjoin]
      have hdata : (l ++ "\n" ++ joinLines (l2 :: ls2)).data =
          l.data ++ '\n' :: (joinLines (l2 :: ls2)).data := by
        rw [String.data_append, String.data_append]
        simp [List.append_assoc]
      rw [hdata, splitLinesChars_append _ _ (hnl l (List.mem_cons_self _ _))]
      rw [List.map_cons, mk_data]
      have hrest := ih (by simp) (fun x hx => hnl x (List.mem_cons_of_mem _ hx))
      unfold splitLines at hrest
      rw [hrest]

/-! ### Parsing the generated lines -/

theorem parse_none_empty (l : String) (h : l.data = []) : parseSlideLine l = none := by
  simp [parseSlideLine, dropSpaces, h, takeDigits]

theorem parse_none_head (l : String) (c : Char) (cs : List Char)
    (h : l.data = c :: cs) (hc : c.isDigit = false) (hsp : c ≠ ' ') :
    parseSlideLine l = none := by
  simp only [parseSlideLine, dropSpaces, h]
  rw [List.dropWhile_cons]
  simp [hsp, takeDigits, hc]

theorem parse_none_prefix (pre rest : String) (c : Char) (cs : List Char)
    (hpre : pre.data = c :: cs) (hc : c.isDigit = false) (hsp : c ≠ ' ') :
    parseSlideLine (pre ++ rest) = none := by
  apply parse_none_head _ c (cs ++ rest.data)
  · rw [String.data_append, hpre]; rfl
  · exact hc
  · exact hsp

theorem untilRB_append_not_mem (A r : List Char) (h : ']' ∉ A) :
    takeUntilRB (A ++ ']' :: r) = A ∧ dropUntilRB (A ++ ']' :: r) = ']' :: r := by
  induction A with
  | nil => constructor <;> simp [takeUntilRB, dropUntilRB]
  | cons a A ih =>
    have ha : a ≠ ']' := fun e => h (e ▸ List.mem_cons_self a A)
    have h2 : ']' ∉ A := fun e => h (List.mem_cons_of_mem _ e)
    obtain ⟨ih1, ih2⟩ := ih h2
    constructor
    · rw [List.cons_append]
      simp only [takeUntilRB, if_neg ha]
      rw [ih1]
    · rw [List.cons_append]
      simp only [dropUntilRB, if_neg ha]
      rw [ih2]

theorem dropSpaces_padNum2 (i : Nat) (R : List Char) :
    dropSpaces (padNum2 i ++ R) = natToDecimal i ++ R := by
  obtain ⟨d, ds, hds⟩ := List.exists_cons_of_ne_nil (natToDecimal_ne_nil i)
  have hd : d.isDigit = true := natToDecimal_digits i d (by rw [hds]; exact List.mem_cons_self _ _)
  have hdsp : d ≠ ' ' := ne_of_isDigit hd (by decide)
  simp only [padNum2, dropSpaces]
  by_cases hlen : (natToDecimal i).length < 2
  · rw [if_pos hlen, hds]
    simp only [List.cons_append, List.dropWhile_cons]
    simp [hdsp]
  · rw [if_neg hlen, hds]
    simp only [List.cons_append, List.dropWhile_cons]
    simp [hdsp]

theorem takeDigits_natToDecimal (i : Nat) (R : List Char) (hR : headNotDigit R = true) :
    takeDigits (natToDecimal i ++ R) = (natToDecimal i, R) :=
  takeDigits_append _ _ (natToDecimal_digits i) hR

/-- Parsing one rendered slide line of the summary recovers the index
and the type tag, for any tag whose padded form contains no bracket and
maps back through `SlideType.ofValue`. -/
theorem parseSlideLine_generic (i : Nat) (v : String) (st : SlideType) (title : String)
    (hv1 : ']' ∉ padRight15 v)
    (hv2 : SlideType.ofValue (String.mk (rstripSpaces (padRight15 v))) = some st) :
    parseSlideLine
      (String.mk (padNum2 i) ++ ". [" ++ String.mk (padRight15 v) ++ "] " ++ title) =
      some (i, st) := by
  have hdata :
      (String.mk (padNum2 i) ++ ". [" ++ String.mk (padRight15 v) ++ "] " ++ title).data =
        padNum2 i ++ ('.' :: ' ' :: '[' :: (padRight15 v ++ (']' :: ' ' :: title.data))) := by
    simp only [String.data_append]
    simp [List.append_assoc]
  simp only [parseSlideLine, hdata]
  rw [dropSpaces_padNum2]
  rw [takeDigits_natToDecimal _ _ (by rfl)]
  simp only [if_neg (natToDecimal_ne_nil i)]
  obtain ⟨ht, hdr⟩ := untilRB_append_not_mem (padRight15 v) (' ' :: title.data) hv1
  rw [ht, hdr, hv2, digitsVal_natToDecimal]
  rfl

/-- Parsing the summary line generated for slide `s` at index `i`
recovers `(i, s.slide_type)`. -/
theorem parseSlideLine_slideLine (i : Nat) (s : Slide) :
    parseSlideLine (slideLine i s) = some (i, s.slide_type) := by
  cases s with
  | titleSlide t f2 f3 f4 f5 =>
    exact parseSlideLine_generic i "title" .title t (by decide) (by decide)
  | agendaSlide t f2 f3 =>
    exact parseSlideLine_generic i "agenda" .agenda t (by decide) (by decide)
  | contentSlide t f2 f3 f4 =>
    exact parseSlideLine_generic i "content" .content t (by decide) (by decide)
  | keyPointsSlide t f2 f3 =>
    exact parseSlideLine_generic i "key_points" .key_points t (by decide) (by decide)
  | sectionHeaderSlide t f2 f3 =>
    exact parseSlideLine_generic i "section_header" .section_header t (by decide) (by decide)
  | closingSlide t f2 f3 =>
    exact parseSlideLine_generic i "closing" .closing t (by decide) (by decide)

/-! ### Newline-freedom of the summary lines -/

theorem no_nl_natToDecimal (n : Nat) : '\n' ∉ natToDecimal n := by
  intro h
  exact absurd (natToDecimal_digits n _ h) (by decide)

theorem no_nl_natToString (n : Nat) : '\n' ∉ (natToString n).data :=
  no_nl_natToDecimal n

theorem no_nl_intToString (d : Int) : '\n' ∉ (intToString d).data := by
  unfold intToString
  split
  · intro h
    rcases List.mem_cons.mp h with h | h
    · exact absurd h (by decide)
    · exact no_nl_natToDecimal _ h
  · exact no_nl_natToString _

theorem no_nl_value (st : SlideType) : '\n' ∉ (SlideType.value st).data := by
  cases st <;> decide

theorem no_nl_padNum2 (i : Nat) : '\n' ∉ padNum2 i := by
  simp only [padNum2]
  split
  · intro h
    rcases List.mem_cons.mp h with h | h
    · exact absurd h (by decide)
    · exact no_nl_natToDecimal _ h
  · exact no_nl_natToDecimal _

theorem no_nl_padRight15 (st : SlideType) : '\n' ∉ padRight15 st.value := by
  intro h
  rcases List.mem_append.mp h with h | h
  · exact no_nl_value st h
  · exact absurd (List.eq_of_mem_replicate h) (by decide)

/-- The character-level decomposition of a rendered slide line. -/
theorem slideLine_data (i : Nat) (s : Slide) :
    (slideLine i s).data =
      padNum2 i ++ ('.' :: ' ' :: '[' ::
        (padRight15 s.slide_type.value ++ (']' :: ' ' :: s.title.data))) := by
  simp only [slideLine, String.data_append]
  simp [List.append_assoc]

theorem no_nl_slideLine (i : Nat) (s : Slide) (h : '\n' ∉ s.title.data) :
    '\n' ∉ (slideLine i s).data := by
  intro hmem
  rw [slideLine_data] at hmem
  rcases List.mem_append.mp hmem with h1 | h1
  · exact no_nl_padNum2 i h1
  rcases List.mem_cons.mp h1 with h2 | h2
  · exact absurd h2 (by decide)
  rcases List.mem_cons.mp h2 with h3 | h3
  · exact absurd h3 (by decide)
  rcases List.mem_cons.mp h3 with h4 | h4
  · exact absurd h4 (by decide)
  rcases List.mem_append.mp h4 with h5 | h5
  · exact no_nl_padRight15 _ h5
  rcases List.mem_cons.mp h5 with h6 | h6
  · exact absurd h6 (by decide)
  rcases List.mem_cons.mp h6 with h7 | h7
  · exact absurd h7 (by decide)
  · exact h h7

theorem mem_enumFrom_snd {α : Type} :
    ∀ (l : List α) (n : Nat) (x : Nat × α), x ∈ l.enumFrom n → x.2 ∈ l := by
  intro l
  induction l with
  | nil => intro n x hx; simp [List.enumFrom] at hx
  | cons a l ih =>
    intro n x hx
    rcases List.mem_cons.mp hx with h | h
    · subst h; exact List.mem_cons_self _ _
    · exact List.mem_cons_of_mem _ (ih _ _ h)

theorem summaryLines_no_nl (p : PresentationPlan)
    (htitle : '\n' ∉ p.title.data)
    (hslides : ∀ s ∈ p.slides, '\n' ∉ s.title.data) :
    ∀ l ∈ summaryLines p, '\n' ∉ l.data := by
  intro l hl
  simp only [summaryLines, List.mem_append, List.mem_cons, List.not_mem_nil, or_false,
    List.mem_map] at hl
  rcases hl with (h | h | h | h | h | h) | ⟨is, hmem, heq⟩
  · subst h
    intro hmem
    rw [String.data_append] at hmem
    rcases List.mem_append.mp hmem with h | h
    · exact absurd h (by decide)
    · exact htitle h
  · subst h
    intro hmem
    rw [String.data_append] at hmem
    rcases List.mem_append.mp hmem with h | h
    · exact absurd h (by decide)
    · exact no_nl_natToString _ h
  · subst h
    intro hmem
    rw [String.data_append, String.data_append] at hmem
    rcases List.mem_append.mp hmem with h | h
    · rcases List.mem_append.mp h with h | h
      · exact absurd h (by decide)
      · exact no_nl_intToString _ h
    · exact absurd h (by decide)
  · subst h; decide
  · subst h; decide
  · subst h; decide
  · rw [← heq]
    exact no_nl_slideLine _ _ (hslides _ (mem_enumFrom_snd _ _ _ hmem))

/-! ### Header lines never parse as slide lines -/

theorem parse_none_presentation (t : String) :
    parseSlideLine ("Presentation: " ++ t) = none :=
  parse_none_prefix "Presentation: " t 'P' ("resentation: ").data rfl (by decide) (by decide)

theorem parse_none_slides (r : String) :
    parseSlideLine ("Slides: " ++ r) = none :=
  parse_none_prefix "Slides: " r 'S' ("lides: ").data rfl (by decide) (by decide)

theorem parse_none_duration (d : Int) :
    parseSlideLine ("Duration: ~" ++ intToString d ++ " minutes") = none := by
  rw [String.append_assoc]
  exact parse_none_prefix "Duration: ~" _ 'D' ("uration: ~").data rfl (by decide) (by decide)

theorem summary_headers_filterMap (p : PresentationPlan) :
    List.filterMap parseSlideLine
      ["Presentation: " ++ p.title,
       "Slides: " ++ natToString p.get_slide_count,
       "Duration: ~" ++ intToString p.estimated_duration_minutes ++ " minutes",
       "",
       "Slide Structure:",
       String.mk (List.replicate 40 '-')] = [] := by
  rw [List.filterMap_cons_none (parse_none_presentation p.title),
      List.filterMap_cons_none (parse_none_slides _),
      List.filterMap_cons_none (parse_none_duration _),
      List.filterMap_cons_none (show parseSlideLine "" = none by decide),
      List.filterMap_cons_none (show parseSlideLine "Slide Structure:" = none by decide),
      List.filterMap_cons_none
        (show parseSlideLine (String.mk (List.replicate 40 '-')) = none by decide),
      List.filterMap_nil]

theorem filterMap_eq_map_of_forall {α β : Type} (f : α → Option β) (g : α → β)
    (l : List α) (h : ∀ x ∈ l, f x = some (g x)) :
    l.filterMap f = l.map g := by
  induction l with
  | nil => rfl
  | cons a l ih =>
    rw [List.filterMap_cons_some (h a (List.mem_cons_self _ _)), List.map_cons,
      ih (fun x hx => h x (List.mem_cons_of_mem _ hx))]

/-! ### C9: summary round-trip -/

set_option maxHeartbeats 1000000 in
/-- Claim C9 (amended: restricted to plans whose plan title and slide
titles contain no newline character — with embedded newlines the
summary is ambiguous, see the counterexample): re-parsing the generated
summary yields every slide exactly once, in presentation order, at its
1-based index, with its type tag; in particular the parsed count equals
`get_slide_count` and the parsed tag sequence equals the slides' tag
sequence. -/
theorem C9_amended_thm (p : PresentationPlan)
    (htitle : '\n' ∉ p.title.data)
    (hslides : ∀ s ∈ p.slides, '\n' ∉ s.title.data) :
    parseSummary p.get_slide_summary =
      (p.slides.enumFrom 1).map (fun is => (is.1, is.2.slide_type)) ∧
    (parseSummary p.get_slide_summary).length = p.get_slide_count ∧
    (parseSummary p.get_slide_summary).map Prod.snd = p.slides.map Slide.slide_type ∧
    (parseSummary p.get_slide_summary).map Prod.fst = List.range' 1 p.get_slide_count := by
  have hmain : parseSummary p.get_slide_summary =
      (p.slides.enumFrom 1).map (fun is => (is.1, is.2.slide_type)) := by
    unfold parseSummary PresentationPlan.get_slide_summary
    rw [splitLines_joinLines (summaryLines p) (by simp [summaryLines])
      (summaryLines_no_nl p htitle hslides)]
    unfold summaryLines
    rw [List.filterMap_append, summary_headers_filterMap p, List.nil_append,
      List.filterMap_map]
    exact filterMap_eq_map_of_forall _ _ _ (fun is _ => parseSlideLine_slideLine is.1 is.2)
  refine ⟨hmain, ?_, ?_, ?_⟩
  · rw [hmain, List.length_map, List.enumFrom_length]; rfl
  · rw [hmain, List.map_map]
    rw [show (Prod.snd ∘ fun is : Nat × Slide => (is.1, is.2.slide_type)) =
        (Slide.slide_type ∘ Prod.snd) from rfl]
    rw [← List.map_map, List.enumFrom_map_snd]
  · rw [hmain, List.map_map]
    rw [show (Prod.fst ∘ fun is : Nat × Slide => (is.1, is.2.slide_type)) =
        (Prod.fst : Nat × Slide → Nat) from rfl]
    rw [List.enumFrom_map_fst]
    rfl

/-- Witness for C9: the round-trip at a concrete two-slide plan. -/
theorem C9_amended_witness :
    parseSummary demoPlan.get_slide_summary =
      (demoPlan.slides.enumFrom 1).map (fun is => (is.1, is.2.slide_type)) :=
  (C9_amended_thm demoPlan (by decide) (by decide)).1

/-- A two-slide plan whose second slide title embeds newlines imitating
a summary tail. -/
def planCeA : PresentationPlan :=
  { title := "T"
    description := ""
    target_audience := ""
    estimated_duration_minutes := 30
    slides := [.contentSlide "A" "b" "" "",
               .contentSlide
                 ("X\nSlides: 1\nDuration: ~30 minutes\n\nSlide Structure:\n----------------------------------------\n 1. [content        ] Y")
                 "b" "" ""] }

/-- A one-slide plan whose plan title embeds newlines imitating a
summary head; it renders to exactly the same summary as `planCeA`. -/
def planCeB : PresentationPlan :=
  { title := "T\nSlides: 2\nDuration: ~30 minutes\n\nSlide Structure:\n----------------------------------------\n 1. [content        ] A\n 2. [content        ] X"
    description := ""
    target_audience := ""
    estimated_duration_minutes := 30
    slides := [.contentSlide "Y" "b" "" ""] }

set_option maxHeartbeats 1000000 in
set_option maxRecDepth 10000 in
/-- Claim C9, counterexample: two plans with different slide counts
render to the identical summary string, so no function of the summary
can recover both counts: the round-trip fails for arbitrary plans (it
needs the no-newline restriction of the amended claim).  The modelled
re-parser concretely returns three entries for the two-slide plan. -/
theorem C9_counterexample :
    planCeA.get_slide_summary = planCeB.get_slide_summary ∧
    planCeA.get_slide_count ≠ planCeB.get_slide_count ∧
    (parseSummary planCeA.get_slide_summary).length ≠ planCeA.get_slide_count := by
  refine ⟨by decide, by decide, by decide⟩

end SlidesAgent
